import Mathlib

/-!
Verification of the sandboxed tool-execution layer (`functions/get_file_content.py`,
`functions/get_files_info.py`, `functions/write_file_content.py`, `functions/run_python.py`,
`main.py`) against its natural-language specification.

The Python code is shallowly embedded: paths are strings, the filesystem is an
association list from absolute normalized path strings to entries, fallible OS calls
are modeled by explicit oracle parameters, and the subprocess is modeled by an
explicit execution-outcome parameter.  Every definition follows the corresponding
Python function line by line.
-/

/-! ## Python string primitives used by the code -/

/-- Python `str.startswith`: raw string-prefix test, exactly as used by the
containment checks (`abs_file_path.startswith(abs_working_dir)`). -/
def startsWithPy (s pre : String) : Bool :=
  pre.data.isPrefixOf s.data

/-- Python `str.endswith`, as used by `file_path.endswith(".py")`. -/
def endsWithPy (s suf : String) : Bool :=
  suf.data.reverse.isPrefixOf s.data.reverse

/-- Python `f.read(n)` on a text file: the first `n` characters. -/
def takeChars (s : String) (n : Nat) : String :=
  String.mk (s.data.take n)

/-- Python `sep.join(xs)`. -/
def pyJoin (sep : String) : List String → String
  | [] => ""
  | [x] => x
  | x :: y :: xs => x ++ sep ++ pyJoin sep (y :: xs)

/-- UTF-8 byte width of one character (the on-disk size of the character for a
text file, as measured by `os.path.getsize`). -/
def charBytes (c : Char) : Nat :=
  if c.val ≤ 0x7F then 1 else if c.val ≤ 0x7FF then 2 else if c.val ≤ 0xFFFF then 3 else 4

/-- Python `os.path.getsize` on a UTF-8 text file whose decoded content is `s`:
the total number of bytes, not the number of characters. -/
def fileSize (s : String) : Nat :=
  s.data.foldl (fun n c => n + charBytes c) 0

/-! ## Path model: `os.path.abspath`, `os.path.join`, `os.path.dirname`

An absolute normalized path is rendered as `/seg1/seg2/...` (or `/` when empty).
`os.path.abspath(os.path.join(wd, p))` is modeled lexically: split on `/`,
drop empty segments and `.`, resolve `..` against the accumulated segments
(clamping at the root, as `os.path.normpath` does). The embedding assumes the
working directory is itself given as an absolute path, which is how every
caller in the repository supplies it. -/

/-- Split a path string at `/` characters (empty pieces discarded by the caller). -/
def splitChars : List Char → List Char → List String
  | [], acc => [String.mk acc.reverse]
  | c :: cs, acc =>
    if c = '/' then String.mk acc.reverse :: splitChars cs []
    else splitChars cs (c :: acc)

/-- Path segments of a path string: split on `/`, keeping nonempty segments. -/
def splitSegs (s : String) : List String :=
  (splitChars s.data []).filter (fun x => x ≠ "")

/-- Lexical normalization of a segment list: drop `.`, resolve `..` upward,
clamping at the root (`os.path.normpath` on an absolute path). -/
def normSegs (segs : List String) : List String :=
  segs.foldl
    (fun acc seg =>
      if seg = "." then acc
      else if seg = ".." then acc.dropLast
      else acc ++ [seg]) []

/-- Render a normalized segment list as an absolute path string. -/
def renderAbs (segs : List String) : String :=
  "/" ++ pyJoin "/" segs

/-- `os.path.abspath(p)` for an absolute input `p`. -/
def abspath (p : String) : String :=
  renderAbs (normSegs (splitSegs p))

/-- `os.path.abspath(os.path.join(wd, p))`: if `p` is absolute, `os.path.join`
discards `wd`; otherwise the segments are concatenated before normalization. -/
def abspathJoin (wd p : String) : String :=
  if startsWithPy p "/" then abspath p
  else renderAbs (normSegs (splitSegs wd ++ splitSegs p))

/-- `os.path.dirname` of a rendered absolute normalized path. -/
def dirname (p : String) : String :=
  renderAbs ((splitSegs p).dropLast)

/-- `os.path.basename` of a rendered absolute normalized path. -/
def baseName (p : String) : String :=
  match (splitSegs p).getLast? with
  | some s => s
  | none => ""

/-- `os.path.join(dir, child)` for a direct child name (used by the lister). -/
def joinUnder (p item : String) : String :=
  if p = "/" then p ++ item else p ++ "/" ++ item

/-! ## Filesystem model -/

/-- A directory entry: a regular file with decoded text content, or a directory. -/
inductive Entry : Type
  | file (content : String) : Entry
  | dir : Entry
deriving DecidableEq, Repr

/-- The filesystem: an association list from absolute normalized path strings
to entries.  The path `/` is treated as an always-existing directory. -/
def FS : Type := List (String × Entry)

instance : DecidableEq FS := inferInstanceAs (DecidableEq (List (String × Entry)))

/-- Look up a path in the filesystem. -/
def FS.lookup (fs : FS) (p : String) : Option Entry :=
  (List.find? (fun q => q.1 == p) fs).map (fun q => q.2)

/-- Create or overwrite an entry. -/
def FS.insert (fs : FS) (p : String) (e : Entry) : FS :=
  (p, e) :: List.filter (fun q => q.1 != p) fs

/-- `os.path.exists` (the root `/` always exists). -/
def pathExists (fs : FS) (p : String) : Bool :=
  p == "/" || (FS.lookup fs p).isSome

/-- `os.path.isdir` (the root `/` is always a directory). -/
def isdir (fs : FS) (p : String) : Bool :=
  p == "/" || FS.lookup fs p == some Entry.dir

/-- `os.path.isfile`. -/
def isfile (fs : FS) (p : String) : Bool :=
  match FS.lookup fs p with
  | some (Entry.file _) => true
  | _ => false

/-- Content of the regular file at `p` (callers guard with `isfile`). -/
def readFileContent (fs : FS) (p : String) : String :=
  match FS.lookup fs p with
  | some (Entry.file c) => c
  | _ => ""

/-- `os.listdir`: names of the direct children of directory `p`. -/
def listdir (fs : FS) (p : String) : List String :=
  ((fs.map (fun q => q.1)).filter (fun k => dirname k == p && k != p)).map baseName

/-! ## `functions/get_file_content.py` -/

/-- The truncation marker appended by `get_file_content`:
`[...File "<file_path>" truncated at <maxChars> characters]`. -/
def truncMarker (fp : String) (maxChars : Nat) : String :=
  "[...File \"" ++ (fp ++ ("\" truncated at " ++ (Nat.repr maxChars ++ " characters]")))

/-- `get_file_content(working_directory, file_path)` from
`functions/get_file_content.py`, with the `MAX_CHARS` constant made an explicit
`maxChars` parameter and the possibility of an I/O exception inside the `try`
block modeled by the oracle `ioErr` (`some msg` means `open`/`read` raised an
exception rendered as `msg`). -/
def get_file_content (fs : FS) (ioErr : Option String) (wd fp : String) (maxChars : Nat) : String :=
  let awd := abspath wd
  let afp := abspathJoin wd fp
  if !startsWithPy afp awd then
    "Error: Cannot read \"" ++ (fp ++ "\" as it is outside the permitted working directory")
  else if !isfile fs afp then
    "Error: File not found or is not a regular file: \"" ++ (fp ++ "\"")
  else
    match ioErr with
    | some e => "Error reading file \"" ++ (fp ++ ("\": " ++ e))
    | none =>
      let content := takeChars (readFileContent fs afp) maxChars
      if fileSize (readFileContent fs afp) > maxChars then content ++ truncMarker fp maxChars
      else content

/-- Modelled from the spec: the repository imports `MAX_CHARS` from a
`config.py` that is not under `src/`; the in-repo docstring and the spec fix
the truncation budget at 10000 characters. -/
def MAX_CHARS : Nat := 10000

/-! ## `functions/write_file_content.py` -/

/-- One `os.mkdir` step inside `os.makedirs`, walking the segment list of the
target top-down.  `acc` is the already-processed ancestor, `rest` the remaining
segments.  Mirrors CPython `os.makedirs`: an existing intermediate directory or
file is skipped (the `FileExistsError` from `mkdir` on an intermediate is
swallowed), a missing component is created when its parent is a directory, the
leaf raises `FileExistsError` when it exists and creation was not idempotent
(`exist_ok=False`, or the leaf is a file), and a missing component under a
non-directory parent raises `NotADirectoryError`.  Errors return the partially
mutated filesystem, as on a real OS. -/
def makedirsGo (fs : FS) (acc rest : List String) (existOk : Bool) : Option String × FS :=
  match rest with
  | [] => (none, fs)
  | seg :: rest2 =>
    let acc2 := acc ++ [seg]
    let p := renderAbs acc2
    match FS.lookup fs p with
    | some Entry.dir =>
      if rest2 = [] && !existOk then
        (some ("[Errno 17] File exists: " ++ p), fs)
      else makedirsGo fs acc2 rest2 existOk
    | some (Entry.file _) =>
      if rest2 = [] then (some ("[Errno 17] File exists: " ++ p), fs)
      else makedirsGo fs acc2 rest2 existOk
    | none =>
      if isdir fs (renderAbs acc) then
        makedirsGo (FS.insert fs p Entry.dir) acc2 rest2 existOk
      else (some ("[Errno 20] Not a directory: " ++ p), fs)

/-- `os.makedirs(p, exist_ok=existOk)` on an absolute normalized path `p`. -/
def makedirs (fs : FS) (p : String) (existOk : Bool) : Option String × FS :=
  makedirsGo fs [] (splitSegs p) existOk

/-- `open(p, "w")` followed by `f.write(content)`: fails if `p` is a directory
(`IsADirectoryError`) or its parent directory does not exist
(`FileNotFoundError`); otherwise creates or fully overwrites the file. -/
def openWrite (fs : FS) (p content : String) : Option String × FS :=
  if isdir fs p then (some ("[Errno 21] Is a directory: " ++ p), fs)
  else if !isdir fs (dirname p) then
    (some ("[Errno 2] No such file or directory: " ++ p), fs)
  else (none, FS.insert fs p (Entry.file content))

/-- `write_file(working_directory, file_path, content)` from
`functions/write_file_content.py`.  Returns the result string together with the
filesystem after the call. -/
def write_file (fs : FS) (wd fp content : String) : String × FS :=
  let awd := abspath wd
  let afp := abspathJoin wd fp
  if !startsWithPy afp awd then
    ("Error: Cannot write to \"" ++ (fp ++ "\" as it is outside the permitted working directory"), fs)
  else
    let mk := if !pathExists fs afp then makedirs fs (dirname afp) true else (none, fs)
    match mk with
    | (some e, fs1) => ("Error: creating directory: " ++ e, fs1)
    | (none, fs1) =>
      if pathExists fs1 afp && isdir fs1 afp then
        ("Error: \"" ++ (fp ++ "\" is a directory, not a file"), fs1)
      else
        match openWrite fs1 afp content with
        | (some e, fs2) => ("Error: writing to file: " ++ e, fs2)
        | (none, fs2) =>
          ("Successfully wrote to \"" ++ (fp ++ ("\" (" ++ (Nat.repr content.length ++ " characters written)"))), fs2)

/-! ## `functions/run_python.py` -/

/-- Result of the `subprocess.run(["python", path] + args, ...)` call, which the
embedding treats as an oracle: the child completed with captured stdout, stderr
and exit code; the 30-second wall-clock timeout expired (the child is killed by
`subprocess.run` before `TimeoutExpired` is raised); or the spawn raised some
other exception rendered as `msg`. -/
inductive ExecOutcome : Type
  | completed (stdout stderr : String) (returncode : Int) : ExecOutcome
  | timeout : ExecOutcome
  | raised (msg : String) : ExecOutcome
deriving DecidableEq, Repr

/-- The `output` list built after a completed run: a `STDOUT:` section when
stdout is non-empty, a `STDERR:` section when stderr is non-empty, and an
exit-code line when the exit code is non-zero. -/
def execSections (o e : String) (rc : Int) : List String :=
  (if o ≠ "" then ["STDOUT:\n" ++ o] else [])
    ++ (if e ≠ "" then ["STDERR:\n" ++ e] else [])
    ++ (if rc ≠ 0 then ["Process exited with code " ++ Int.repr rc] else [])

/-- `"\n".join(output) if output else "No output produced."`. -/
def formatExec (o e : String) (rc : Int) : String :=
  match execSections o e rc with
  | [] => "No output produced."
  | xs => pyJoin "\n" xs

/-- The three prechecks of `run_python_file`, in source order: containment,
`os.path.exists` on the resolved path, `.py` suffix on the caller-supplied
relative path.  Returns the first failing check's error string, or `none` when
all pass.  This chain is identical in `functions/run_python.py` (lines 17-25)
and in the duplicate in `functions/get_files_info.py` (lines 148-163). -/
def run_python_precheck (fs : FS) (wd fp : String) : Option String :=
  let awd := abspath wd
  let afp := abspathJoin wd fp
  if !startsWithPy afp awd then
    some ("Error: Cannot execute \"" ++ (fp ++ "\" as it is outside the permitted working directory"))
  else if !pathExists fs afp then
    some ("Error: File \"" ++ (fp ++ "\" not found."))
  else if !endsWithPy fp ".py" then
    some ("Error: \"" ++ (fp ++ "\" is not a Python file."))
  else none

/-- A single-quote character, used by Python `repr` of strings. -/
def sqChar : String := String.mk [Char.ofNat 39]

/-- Python `repr` of a list of strings (no embedded quotes), as interpolated
into `str(subprocess.TimeoutExpired)`. -/
def pyListRepr (xs : List String) : String :=
  "[" ++ (pyJoin ", " (xs.map (fun s => sqChar ++ (s ++ sqChar))) ++ "]")

/-- `str(subprocess.TimeoutExpired(cmd, 30))`. -/
def timeoutExceptionStr (cmd : List String) : String :=
  "Command " ++ (sqChar ++ (pyListRepr cmd ++ (sqChar ++ " timed out after 30 seconds")))

/-- `run_python_file(working_directory, file_path, args)` from
`functions/run_python.py`.  Its `except Exception` block catches
`subprocess.TimeoutExpired` together with every other exception, so the timeout
message is `str(TimeoutExpired)` interpolated into the generic template. -/
def run_python_file (fs : FS) (wd fp : String) (args : List String) (oc : ExecOutcome) : String :=
  match run_python_precheck fs wd fp with
  | some e => e
  | none =>
    match oc with
    | ExecOutcome.completed o e rc => formatExec o e rc
    | ExecOutcome.timeout =>
      "Error: executing Python file: "
        ++ timeoutExceptionStr ("python" :: abspathJoin wd fp :: args)
    | ExecOutcome.raised msg => "Error: executing Python file: " ++ msg

/-! ## `functions/get_files_info.py`

This module contains the directory lister plus its own duplicate
implementations of the writer, the runner and the reader; the duplicates are
embedded in the `Gfi` namespace. -/

/-- Python `str(bool)`. -/
def pyBool (b : Bool) : String :=
  if b then "True" else "False"

/-- One listing line: `- <item>: file_size=<size> bytes, is_dir=<bool>`. -/
def listingLine (fs : FS) (full item : String) : String :=
  let ip := joinUnder full item
  let size := if isfile fs ip then fileSize (readFileContent fs ip) else 0
  "- " ++ (item ++ (": file_size=" ++ (Nat.repr size ++ (" bytes, is_dir=" ++ pyBool (isdir fs ip)))))

/-- `get_files_info(working_directory, directory)` from
`functions/get_files_info.py` (lines 69-102). -/
def get_files_info (fs : FS) (wd dir : String) : String :=
  let full := abspathJoin wd dir
  let awd := abspath wd
  if !startsWithPy full awd then
    "Error: Cannot list \"" ++ (dir ++ "\" as it is outside the permitted working directory")
  else if !isdir fs full then
    "Error: \"" ++ (dir ++ "\" is not a directory")
  else
    pyJoin "\n"
      (("Result for \"" ++ (dir ++ "\" directory:"))
        :: (listdir fs full).map (listingLine fs full))

namespace Gfi

/-- The duplicate `write_file` in `functions/get_files_info.py` (lines
105-134): no explicit directory check on the target; `os.makedirs` is called
without `exist_ok` and only when the parent does not exist; every exception is
rendered as `Error: <e>`. -/
def write_file (fs : FS) (wd fp content : String) : String × FS :=
  let awd := abspath wd
  let afp := abspathJoin wd fp
  if !startsWithPy afp awd then
    ("Error: Cannot write to \"" ++ (fp ++ "\" as it is outside the permitted working directory"), fs)
  else
    let d := dirname afp
    let mk := if !pathExists fs d then makedirs fs d false else (none, fs)
    match mk with
    | (some e, fs1) => ("Error: " ++ e, fs1)
    | (none, fs1) =>
      match openWrite fs1 afp content with
      | (some e, fs2) => ("Error: " ++ e, fs2)
      | (none, fs2) =>
        ("Successfully wrote to \"" ++ (fp ++ ("\" (" ++ (Nat.repr content.length ++ " characters written)"))), fs2)

/-- The duplicate `run_python_file` in `functions/get_files_info.py` (lines
137-197): same prechecks and output composition as `functions/run_python.py`,
but with a dedicated `except subprocess.TimeoutExpired` handler returning a
fixed timeout string. -/
def run_python_file (fs : FS) (wd fp : String) (args : List String) (oc : ExecOutcome) : String :=
  match run_python_precheck fs wd fp with
  | some e => e
  | none =>
    match oc with
    | ExecOutcome.completed o e rc => formatExec o e rc
    | ExecOutcome.timeout => "Error: executing Python file: Process timed out after 30 seconds"
    | ExecOutcome.raised msg => "Error: executing Python file: " ++ msg

/-- The duplicate `get_file_content` in `functions/get_files_info.py` (lines
240-269): the not-a-regular-file error interpolates the resolved absolute
`full_path`, the truncation threshold is a hard-coded 10000 measured on the
decoded character count, and the marker names neither the path nor the limit. -/
def get_file_content (fs : FS) (wd fp : String) : String :=
  let awd := abspath wd
  let afp := abspathJoin wd fp
  if !startsWithPy afp awd then
    "Error: Cannot read \"" ++ (fp ++ "\" as it is outside the permitted working directory")
  else if !isfile fs afp then
    "Error: File not found or is not a regular file: \"" ++ (afp ++ "\"")
  else
    let content := readFileContent fs afp
    if content.length > 10000 then
      takeChars content 10000 ++ "[...File truncated at 10000 characters]"
    else content

end Gfi

/-! ## The dispatcher (`call_function`) -/

/-- A tool-call argument value: a string or a list of strings. -/
inductive ToolArg : Type
  | s (v : String) : ToolArg
  | l (vs : List String) : ToolArg
deriving DecidableEq, Repr

/-- The model-supplied argument mapping of one tool call. -/
def ToolArgs : Type := List (String × ToolArg)

/-- Look up an argument by name. -/
def lookupArg (args : ToolArgs) (k : String) : Option ToolArg :=
  (List.find? (fun q => q.1 == k) args).map (fun q => q.2)

/-- A string argument, when present with that shape. -/
def argStr (args : ToolArgs) (k : String) : Option String :=
  match lookupArg args k with
  | some (ToolArg.s v) => some v
  | _ => none

/-- A string-list argument, when present with that shape. -/
def argList (args : ToolArgs) (k : String) : Option (List String) :=
  match lookupArg args k with
  | some (ToolArg.l vs) => some vs
  | _ => none

/-- Modelled from the spec: the `call_function` dispatcher is imported by
`main.py` from `functions.get_files_info` but is not present under `src/`.
Following spec section 4.6, it looks the tool name up in the fixed table
(`get_files_info` to the lister, `get_file_content` to the reader, `write_file`
to the writer, `run_python_file` to the runner), injects the fixed sandbox
`root` as the working-directory argument of the operation, reads only the
advertised parameters (`directory`, `file_path`, `content`, `args`) from the
model-supplied mapping with the schema defaults (`.` for `directory`, empty for
the rest), and returns an explicit unknown-function error for any other tool
name.  The I/O oracle `ioErr` and subprocess oracle `oc` are threaded through
to the operations that consume them.  Returns the result text and the
filesystem after the call. -/
def call_function (fs : FS) (root : String) (ioErr : Option String) (oc : ExecOutcome)
    (toolName : String) (args : ToolArgs) : String × FS :=
  if toolName == "get_files_info" then
    (get_files_info fs root ((argStr args "directory").getD "."), fs)
  else if toolName == "get_file_content" then
    (get_file_content fs ioErr root ((argStr args "file_path").getD "") MAX_CHARS, fs)
  else if toolName == "write_file" then
    write_file fs root ((argStr args "file_path").getD "") ((argStr args "content").getD "")
  else if toolName == "run_python_file" then
    (run_python_file fs root ((argStr args "file_path").getD "") ((argList args "args").getD []) oc, fs)
  else
    ("Error: Unknown function: " ++ toolName, fs)

example : abspathJoin "/work" "../work2/secret.txt" = "/work2/secret.txt" := by decide
example : abspath "/work" = "/work" := by decide
example : startsWithPy "/work2/secret.txt" "/work" = true := by decide
example : abspathJoin "/work" "a.txt" = "/work/a.txt" := by decide
example : dirname "/work/a.txt" = "/work" := by decide
example : dirname "/work" = "/" := by decide
example :
    get_file_content [("/work", Entry.dir), ("/work/a.txt", Entry.file "hi")] none "/work" "a.txt" 100
      = "hi" := by decide

/-! ## Helper lemmas on strings and lists -/

theorem isPrefixOf_append_right (p : List Char) :
    ∀ (l m : List Char), p.isPrefixOf l = true → p.isPrefixOf (l ++ m) = true := by
  induction p with
  | nil => intro l m _; simp [List.isPrefixOf]
  | cons c cs ih =>
    intro l m h
    cases l with
    | nil => simp [List.isPrefixOf] at h
    | cons d ds =>
      simp only [List.isPrefixOf, Bool.and_eq_true] at h ⊢
      exact ⟨h.1, ih ds m h.2⟩

theorem startsWithPy_append_left (s t pre : String) (h : startsWithPy s pre = true) :
    startsWithPy (s ++ t) pre = true := by
  unfold startsWithPy at h ⊢
  rw [String.data_append]
  exact isPrefixOf_append_right _ _ _ h

/-- Two lists neither of which is a prefix of the other stay different under
arbitrary right extension. -/
theorem append_ne_append_of_not_pre (l₁ : List Char) :
    ∀ (l₂ a b : List Char), l₁.isPrefixOf l₂ = false → l₂.isPrefixOf l₁ = false →
      l₁ ++ a ≠ l₂ ++ b := by
  induction l₁ with
  | nil => intro l₂ a b h₁ _; simp [List.isPrefixOf] at h₁
  | cons c cs ih =>
    intro l₂ a b h₁ h₂
    cases l₂ with
    | nil => simp [List.isPrefixOf] at h₂
    | cons d ds =>
      simp only [List.isPrefixOf, Bool.and_eq_false_iff] at h₁ h₂
      intro he
      simp only [List.cons_append, List.cons.injEq] at he
      rcases h₁ with h₁ | h₁
      · rw [he.1] at h₁; simp at h₁
      · rcases h₂ with h₂ | h₂
        · rw [he.1] at h₂; simp at h₂
        · exact ih ds a b h₁ h₂ he.2

/-- Two strings whose literal prefixes are incompatible stay different under
arbitrary right extension. -/
theorem strAppend_ne (s₁ s₂ x y : String)
    (h₁ : s₁.data.isPrefixOf s₂.data = false) (h₂ : s₂.data.isPrefixOf s₁.data = false) :
    s₁ ++ x ≠ s₂ ++ y := by
  intro he
  rw [String.ext_iff, String.data_append, String.data_append] at he
  exact append_ne_append_of_not_pre _ _ _ _ h₁ h₂ he

theorem strAppend_empty (s : String) : s ++ "" = s := by
  cases s with
  | mk data => rw [String.ext_iff, String.data_append]; simp [String.data]

theorem strAppend_ne_lit (s₁ x t : String)
    (h₁ : s₁.data.isPrefixOf t.data = false) (h₂ : t.data.isPrefixOf s₁.data = false) :
    s₁ ++ x ≠ t := by
  intro he
  exact strAppend_ne s₁ t x "" h₁ h₂ (by rw [strAppend_empty]; exact he)

theorem one_le_charBytes (c : Char) : 1 ≤ charBytes c := by
  unfold charBytes
  repeat' split
  all_goals omega

theorem foldl_charBytes_ge (l : List Char) :
    ∀ n : Nat, n + l.length ≤ l.foldl (fun a c => a + charBytes c) n := by
  induction l with
  | nil => intro n; simp
  | cons c cs ih =>
    intro n
    have h := ih (n + charBytes c)
    have hc := one_le_charBytes c
    simp only [List.foldl_cons, List.length_cons]
    omega

/-- A string has at least as many UTF-8 bytes as characters. -/
theorem length_le_fileSize (s : String) : s.data.length ≤ fileSize s := by
  have h := foldl_charBytes_ge s.data 0
  simpa [fileSize] using h

theorem takeChars_of_length_le (s : String) (n : Nat) (h : s.data.length ≤ n) :
    takeChars s n = s := by
  cases s with
  | mk data =>
    unfold takeChars
    rw [List.take_of_length_le h]

theorem takeChars_length (s : String) (n : Nat) :
    (takeChars s n).data.length = min n s.data.length := by
  cases s with
  | mk data => simp [takeChars, String.data, List.length_take]

theorem strAppend_right_cancel (a b c : String) (h : a ++ b = a ++ c) : b = c := by
  rw [String.ext_iff, String.data_append, String.data_append] at h
  rw [String.ext_iff]
  exact List.append_cancel_left h

/-! ## Claim C1 -/

/-- C1: the claim states that for a relative path whose normalized join with the
root lacks the root as a segment-boundary prefix (such as the sibling `/work2`
of root `/work`), all four operations return a containment error.  The code
instead uses a raw `startswith` string comparison, so with root `/work` the
path `../work2/secret.py` resolves to `/work2/secret.py`, passes every
containment check, and the operations proceed: the reader returns the sibling
file's content, the writer creates a file outside the root, the lister lists
the sibling directory, and the runner's precheck chain passes containment. -/
theorem c1_sibling_path_escapes_containment :
    get_file_content
        [("/work", Entry.dir), ("/work2", Entry.dir), ("/work2/secret.py", Entry.file "top secret")]
        none "/work" "../work2/secret.py" 10000 = "top secret"
    ∧ FS.lookup
        (write_file
          [("/work", Entry.dir), ("/work2", Entry.dir), ("/work2/secret.py", Entry.file "top secret")]
          "/work" "../work2/evil.txt" "x").2
        "/work2/evil.txt" = some (Entry.file "x")
    ∧ startsWithPy
        (get_files_info
          [("/work", Entry.dir), ("/work2", Entry.dir), ("/work2/secret.py", Entry.file "top secret")]
          "/work" "../work2")
        "Result for" = true
    ∧ run_python_precheck
        [("/work", Entry.dir), ("/work2", Entry.dir), ("/work2/secret.py", Entry.file "top secret")]
        "/work" "../work2/secret.py" = none := by
  decide

/-! ## Claim C2 -/

/-- C2 counterexample: the claim states that a file whose character count is at
or under `maxChars` gets no truncation marker.  The code compares
`os.path.getsize` (bytes) against `maxChars` (characters): a three-character,
six-byte file read with `maxChars = 4` is returned whole but still gets the
marker appended. -/
theorem c2_marker_on_short_multibyte_file :
    ("ééé" : String).data.length ≤ 4
    ∧ get_file_content [("/work", Entry.dir), ("/work/a.txt", Entry.file "ééé")]
        none "/work" "a.txt" 4 = "ééé" ++ truncMarker "a.txt" 4
    ∧ get_file_content [("/work", Entry.dir), ("/work/a.txt", Entry.file "ééé")]
        none "/work" "a.txt" 4 ≠ "ééé" := by
  decide

/-- C2 (amended): for a readable in-sandbox file, the reader returns the first
`maxChars` characters, and the marker `[...File "<relativePath>" truncated at
<maxChars> characters]` (naming the caller-supplied relative path and the
correct `maxChars`) is appended exactly when the file's byte size (the unit of
`os.path.getsize`, not the character count) exceeds `maxChars`; in particular a
file with more than `maxChars` characters always gets the marker with a
non-marker prefix of exactly `maxChars` characters, and a file at or under
`maxChars` bytes is returned verbatim with no marker. -/
theorem c2_truncation_law_bytes (fs : FS) (wd fp : String) (mc : Nat) (content : String)
    (hcont : startsWithPy (abspathJoin wd fp) (abspath wd) = true)
    (hfile : FS.lookup fs (abspathJoin wd fp) = some (Entry.file content)) :
    (fileSize content ≤ mc → get_file_content fs none wd fp mc = content)
    ∧ (fileSize content > mc →
        get_file_content fs none wd fp mc = takeChars content mc ++ truncMarker fp mc)
    ∧ (content.data.length > mc →
        (takeChars content mc).data.length = mc
        ∧ get_file_content fs none wd fp mc = takeChars content mc ++ truncMarker fp mc) := by
  have hread : get_file_content fs none wd fp mc =
      (if fileSize content > mc then takeChars content mc ++ truncMarker fp mc
       else takeChars content mc) := by
    simp only [get_file_content, hcont, Bool.not_true, Bool.false_eq_true, if_false,
      isfile, hfile, readFileContent]
  refine ⟨fun h => ?_, fun h => ?_, fun h => ?_⟩
  · rw [hread, if_neg (by omega),
      takeChars_of_length_le content mc (le_trans (length_le_fileSize content) h)]
  · rw [hread, if_pos h]
  · have hsz : fileSize content > mc := lt_of_lt_of_le h (length_le_fileSize content)
    exact ⟨by rw [takeChars_length]; omega, by rw [hread, if_pos hsz]⟩

/-- Witness for C2 (amended) at a concrete oversized file. -/
theorem c2_truncation_law_bytes_witness :
    get_file_content [("/w", Entry.dir), ("/w/b.txt", Entry.file "abcdef")]
        none "/w" "b.txt" 4 = takeChars "abcdef" 4 ++ truncMarker "b.txt" 4
    ∧ (takeChars "abcdef" 4).data.length = 4
    ∧ get_file_content [("/w", Entry.dir), ("/w/c.txt", Entry.file "hi")]
        none "/w" "c.txt" 4 = "hi" := by
  have h1 := c2_truncation_law_bytes [("/w", Entry.dir), ("/w/b.txt", Entry.file "abcdef")]
    "/w" "b.txt" 4 "abcdef" (by decide) (by decide)
  have h2 := c2_truncation_law_bytes [("/w", Entry.dir), ("/w/c.txt", Entry.file "hi")]
    "/w" "c.txt" 4 "hi" (by decide) (by decide)
  exact ⟨(h1.2.2 (by decide)).2, (h1.2.2 (by decide)).1, h2.1 (by decide)⟩

theorem strAppend_assoc (a b c : String) : a ++ b ++ c = a ++ (b ++ c) := by
  rw [String.ext_iff]
  simp [String.data_append, List.append_assoc]

theorem pyJoin_cons_shape (sep x : String) (xs : List String) :
    ∃ y, pyJoin sep (x :: xs) = x ++ y := by
  cases xs with
  | nil => exact ⟨"", by rw [strAppend_empty]; rfl⟩
  | cons z zs =>
    exact ⟨sep ++ pyJoin sep (z :: zs), by rw [← strAppend_assoc]; rfl⟩

theorem isPrefixOf_append_false (p : List Char) :
    ∀ (l x : List Char), p.isPrefixOf l = false → l.isPrefixOf p = false →
      p.isPrefixOf (l ++ x) = false := by
  induction p with
  | nil => intro l x h₁ _; simp [List.isPrefixOf] at h₁
  | cons c cs ih =>
    intro l x h₁ h₂
    cases l with
    | nil => simp [List.isPrefixOf] at h₂
    | cons d ds =>
      simp only [List.isPrefixOf, List.cons_append, Bool.and_eq_false_iff] at h₁ h₂ ⊢
      rcases h₁ with h₁ | h₁
      · exact Or.inl h₁
      · rcases h₂ with h₂ | h₂
        · rw [beq_eq_false_iff_ne] at h₂ ⊢
          exact Or.inl (fun hcd => h₂ hcd.symm)
        · exact Or.inr (ih ds x h₁ h₂)

/-- A string whose literal prefix is incompatible with `pre` never starts with
`pre`, whatever its suffix. -/
theorem startsWithPy_append_false (lit x pre : String)
    (h₁ : pre.data.isPrefixOf lit.data = false) (h₂ : lit.data.isPrefixOf pre.data = false) :
    startsWithPy (lit ++ x) pre = false := by
  unfold startsWithPy
  rw [String.data_append]
  exact isPrefixOf_append_false _ _ _ h₁ h₂

/-- The result of a completed run is the sentinel (exactly when nothing was
produced) or starts with one of the three section headers. -/
theorem formatExec_shape (o e : String) (rc : Int) :
    (o = "" ∧ e = "" ∧ rc = 0 ∧ formatExec o e rc = "No output produced.")
    ∨ (∃ y, formatExec o e rc = "STDOUT:\n" ++ y)
    ∨ (∃ y, formatExec o e rc = "STDERR:\n" ++ y)
    ∨ (∃ y, formatExec o e rc = "Process exited with code " ++ y) := by
  by_cases ho : o = "" <;> by_cases hee : e = "" <;> by_cases hrc : rc = 0
  · exact Or.inl ⟨ho, hee, hrc, by simp [formatExec, execSections, ho, hee, hrc]⟩
  all_goals simp only [formatExec, execSections, ho, hee, hrc, if_pos, if_neg,
    ite_true, ite_false, if_true, if_false, ne_eq, not_true_eq_false, not_false_eq_true,
    List.nil_append, List.append_nil, List.cons_append, List.singleton_append]
  all_goals first
    | (refine Or.inr (Or.inl ?_)
       obtain ⟨y, hy⟩ := pyJoin_cons_shape "\n" ("STDOUT:\n" ++ o) _
       exact ⟨o ++ y, by rw [hy, strAppend_assoc]⟩)
    | (refine Or.inr (Or.inr (Or.inl ?_))
       obtain ⟨y, hy⟩ := pyJoin_cons_shape "\n" ("STDERR:\n" ++ e) _
       exact ⟨e ++ y, by rw [hy, strAppend_assoc]⟩)
    | (refine Or.inr (Or.inr (Or.inr ?_))
       obtain ⟨y, hy⟩ := pyJoin_cons_shape "\n" ("Process exited with code " ++ Int.repr rc) _
       exact ⟨Int.repr rc ++ y, by rw [hy, strAppend_assoc]⟩)

/-- The result of a completed run never starts with `Error`. -/
theorem formatExec_not_error (o : String) (e : String) (rc : Int) :
    startsWithPy (formatExec o e rc) "Error" = false := by
  rcases formatExec_shape o e rc with ⟨_, _, _, h⟩ | ⟨y, h⟩ | ⟨y, h⟩ | ⟨y, h⟩
  · rw [h]; decide
  · rw [h]; exact startsWithPy_append_false _ _ _ (by decide) (by decide)
  · rw [h]; exact startsWithPy_append_false _ _ _ (by decide) (by decide)
  · rw [h]; exact startsWithPy_append_false _ _ _ (by decide) (by decide)

/-- The result of a completed run is never the fixed no-output sentinel unless
nothing was produced. -/
theorem formatExec_eq_sentinel_iff (o : String) (e : String) (rc : Int) :
    formatExec o e rc = "No output produced." ↔ o = "" ∧ e = "" ∧ rc = 0 := by
  constructor
  · intro h
    rcases formatExec_shape o e rc with ⟨h₁, h₂, h₃, _⟩ | ⟨y, hy⟩ | ⟨y, hy⟩ | ⟨y, hy⟩
    · exact ⟨h₁, h₂, h₃⟩
    · exact absurd (hy.symm.trans h) (strAppend_ne_lit _ _ _ (by decide) (by decide))
    · exact absurd (hy.symm.trans h) (strAppend_ne_lit _ _ _ (by decide) (by decide))
    · exact absurd (hy.symm.trans h) (strAppend_ne_lit _ _ _ (by decide) (by decide))
  · rintro ⟨h₁, h₂, h₃⟩
    simp [formatExec, execSections, h₁, h₂, h₃]

theorem mem_execSections_stdout (o e : String) (rc : Int) :
    ("STDOUT:\n" ++ o) ∈ execSections o e rc ↔ o ≠ "" := by
  have hse : ∀ x y : String, "STDOUT:\n" ++ x ≠ "STDERR:\n" ++ y :=
    fun x y => strAppend_ne _ _ _ _ (by decide) (by decide)
  have hpe : ∀ x y : String, "STDOUT:\n" ++ x ≠ "Process exited with code " ++ y :=
    fun x y => strAppend_ne _ _ _ _ (by decide) (by decide)
  have hse2 : ∀ y : String, ("STDOUT:\n" : String) ≠ "STDERR:\n" ++ y :=
    fun y h => strAppend_ne_lit "STDERR:\n" y "STDOUT:\n" (by decide) (by decide) h.symm
  have hpe2 : ∀ y : String, ("STDOUT:\n" : String) ≠ "Process exited with code " ++ y :=
    fun y h => strAppend_ne_lit "Process exited with code " y "STDOUT:\n"
      (by decide) (by decide) h.symm
  by_cases ho : o = "" <;> by_cases hee : e = "" <;> by_cases hrc : rc = 0
  <;> simp [execSections, ho, hee, hrc, hse, hpe, hse2, hpe2]

theorem mem_execSections_stderr (o e : String) (rc : Int) :
    ("STDERR:\n" ++ e) ∈ execSections o e rc ↔ e ≠ "" := by
  have hso : ∀ x y : String, "STDERR:\n" ++ x ≠ "STDOUT:\n" ++ y :=
    fun x y => strAppend_ne _ _ _ _ (by decide) (by decide)
  have hpe : ∀ x y : String, "STDERR:\n" ++ x ≠ "Process exited with code " ++ y :=
    fun x y => strAppend_ne _ _ _ _ (by decide) (by decide)
  have hso2 : ∀ y : String, ("STDERR:\n" : String) ≠ "STDOUT:\n" ++ y :=
    fun y h => strAppend_ne_lit "STDOUT:\n" y "STDERR:\n" (by decide) (by decide) h.symm
  have hpe2 : ∀ y : String, ("STDERR:\n" : String) ≠ "Process exited with code " ++ y :=
    fun y h => strAppend_ne_lit "Process exited with code " y "STDERR:\n"
      (by decide) (by decide) h.symm
  by_cases ho : o = "" <;> by_cases hee : e = "" <;> by_cases hrc : rc = 0
  <;> simp [execSections, ho, hee, hrc, hso, hpe, hso2, hpe2]

theorem mem_execSections_exit (o e : String) (rc : Int) :
    ("Process exited with code " ++ Int.repr rc) ∈ execSections o e rc ↔ rc ≠ 0 := by
  have hso : ∀ x y : String, "Process exited with code " ++ x ≠ "STDOUT:\n" ++ y :=
    fun x y => strAppend_ne _ _ _ _ (by decide) (by decide)
  have hse : ∀ x y : String, "Process exited with code " ++ x ≠ "STDERR:\n" ++ y :=
    fun x y => strAppend_ne _ _ _ _ (by decide) (by decide)
  have hso2 : ∀ x : String, "Process exited with code " ++ x ≠ "STDOUT:\n" :=
    fun x => strAppend_ne_lit _ _ _ (by decide) (by decide)
  have hse2 : ∀ x : String, "Process exited with code " ++ x ≠ "STDERR:\n" :=
    fun x => strAppend_ne_lit _ _ _ (by decide) (by decide)
  by_cases ho : o = "" <;> by_cases hee : e = "" <;> by_cases hrc : rc = 0
  <;> simp [execSections, ho, hee, hrc, hso, hse, hso2, hse2]

/-! ## Claim C3 -/

/-- C3: when the subprocess times out (the child having been killed by
`subprocess.run` before `TimeoutExpired` is raised), the
`functions/get_files_info.py` runner returns a fixed timeout-specific string
from its dedicated `except subprocess.TimeoutExpired` handler, distinct from
the result of every completed (non-timeout) run and from the generic
exception branch for any other exception message; the
`functions/run_python.py` runner renders `str(TimeoutExpired)` through its
generic handler, which is likewise distinct from every completed result. -/
theorem c3_timeout_error_distinct (fs : FS) (wd fp : String) (args : List String)
    (hpre : run_python_precheck fs wd fp = none) :
    Gfi.run_python_file fs wd fp args ExecOutcome.timeout
      = "Error: executing Python file: Process timed out after 30 seconds"
    ∧ (∀ o e rc, Gfi.run_python_file fs wd fp args (ExecOutcome.completed o e rc)
        ≠ Gfi.run_python_file fs wd fp args ExecOutcome.timeout)
    ∧ (∀ msg, msg ≠ "Process timed out after 30 seconds" →
        Gfi.run_python_file fs wd fp args (ExecOutcome.raised msg)
          ≠ Gfi.run_python_file fs wd fp args ExecOutcome.timeout)
    ∧ run_python_file fs wd fp args ExecOutcome.timeout
      = "Error: executing Python file: "
          ++ timeoutExceptionStr ("python" :: abspathJoin wd fp :: args)
    ∧ (∀ o e rc, run_python_file fs wd fp args (ExecOutcome.completed o e rc)
        ≠ run_python_file fs wd fp args ExecOutcome.timeout) := by
  have hgt : Gfi.run_python_file fs wd fp args ExecOutcome.timeout
      = "Error: executing Python file: Process timed out after 30 seconds" := by
    simp [Gfi.run_python_file, hpre]
  have hst : run_python_file fs wd fp args ExecOutcome.timeout
      = "Error: executing Python file: "
          ++ timeoutExceptionStr ("python" :: abspathJoin wd fp :: args) := by
    simp [run_python_file, hpre]
  refine ⟨hgt, fun o e rc => ?_, fun msg hmsg => ?_, hst, fun o e rc => ?_⟩
  · rw [hgt]
    have hc : Gfi.run_python_file fs wd fp args (ExecOutcome.completed o e rc)
        = formatExec o e rc := by simp [Gfi.run_python_file, hpre]
    rw [hc]
    intro h
    have := formatExec_not_error o e rc
    rw [h] at this
    exact absurd this (by decide)
  · rw [hgt]
    have hr : Gfi.run_python_file fs wd fp args (ExecOutcome.raised msg)
        = "Error: executing Python file: " ++ msg := by simp [Gfi.run_python_file, hpre]
    rw [hr]
    intro h
    have hsplit : ("Error: executing Python file: Process timed out after 30 seconds" : String)
        = "Error: executing Python file: " ++ "Process timed out after 30 seconds" := by decide
    rw [hsplit] at h
    exact hmsg (strAppend_right_cancel _ _ _ h)
  · rw [hst]
    have hc : run_python_file fs wd fp args (ExecOutcome.completed o e rc)
        = formatExec o e rc := by simp [run_python_file, hpre]
    rw [hc]
    intro h
    have hne := formatExec_not_error o e rc
    rw [h] at hne
    have hpos := startsWithPy_append_left "Error: executing Python file: "
      (timeoutExceptionStr ("python" :: abspathJoin wd fp :: args)) "Error" (by decide)
    rw [hpos] at hne
    exact absurd hne (by decide)

/-- Witness for C3 at a concrete script, comparing the timeout result with a
completed non-zero-exit run. -/
theorem c3_timeout_error_distinct_witness :
    Gfi.run_python_file [("/w", Entry.dir), ("/w/a.py", Entry.file "")] "/w" "a.py" []
        ExecOutcome.timeout
      = "Error: executing Python file: Process timed out after 30 seconds"
    ∧ Gfi.run_python_file [("/w", Entry.dir), ("/w/a.py", Entry.file "")] "/w" "a.py" []
        (ExecOutcome.completed "boom" "trace" 1)
      ≠ Gfi.run_python_file [("/w", Entry.dir), ("/w/a.py", Entry.file "")] "/w" "a.py" []
        ExecOutcome.timeout
    ∧ Gfi.run_python_file [("/w", Entry.dir), ("/w/a.py", Entry.file "")] "/w" "a.py" []
        (ExecOutcome.raised "[Errno 2] No such file or directory")
      ≠ Gfi.run_python_file [("/w", Entry.dir), ("/w/a.py", Entry.file "")] "/w" "a.py" []
        ExecOutcome.timeout := by
  have h := c3_timeout_error_distinct [("/w", Entry.dir), ("/w/a.py", Entry.file "")]
    "/w" "a.py" [] (by decide)
  exact ⟨h.1, h.2.1 "boom" "trace" 1, h.2.2.1 "[Errno 2] No such file or directory" (by decide)⟩

/-! ## Claim C6 -/

/-- C6: for a completed (non-timeout) execution that passed the prechecks, the
returned string is the newline join of the section list, which contains the
`STDOUT:` section exactly when captured stdout is non-empty, the `STDERR:`
section exactly when captured stderr is non-empty, and the exit-code line
naming the exact code exactly when the exit code is non-zero; the result is the
literal sentinel `No output produced.` exactly when nothing was captured and
the exit code is zero. -/
theorem c6_output_composition (fs : FS) (wd fp : String) (args : List String)
    (o e : String) (rc : Int)
    (hpre : run_python_precheck fs wd fp = none) :
    run_python_file fs wd fp args (ExecOutcome.completed o e rc) = formatExec o e rc
    ∧ (("STDOUT:\n" ++ o) ∈ execSections o e rc ↔ o ≠ "")
    ∧ (("STDERR:\n" ++ e) ∈ execSections o e rc ↔ e ≠ "")
    ∧ (("Process exited with code " ++ Int.repr rc) ∈ execSections o e rc ↔ rc ≠ 0)
    ∧ (formatExec o e rc = "No output produced." ↔ o = "" ∧ e = "" ∧ rc = 0) := by
  refine ⟨by simp [run_python_file, hpre], mem_execSections_stdout o e rc,
    mem_execSections_stderr o e rc, mem_execSections_exit o e rc,
    formatExec_eq_sentinel_iff o e rc⟩

/-- Witness for C6: a run with stdout and a non-zero exit and no stderr. -/
theorem c6_output_composition_witness :
    run_python_file [("/w", Entry.dir), ("/w/a.py", Entry.file "")] "/w" "a.py" []
        (ExecOutcome.completed "out" "" 2) = formatExec "out" "" 2
    ∧ ("STDOUT:\n" ++ "out") ∈ execSections "out" "" 2
    ∧ ("Process exited with code " ++ Int.repr 2) ∈ execSections "out" "" 2
    ∧ ¬ (("STDERR:\n" ++ "") ∈ execSections "out" "" 2) := by
  have h := c6_output_composition [("/w", Entry.dir), ("/w/a.py", Entry.file "")]
    "/w" "a.py" [] "out" "" 2 (by decide)
  refine ⟨h.1, h.2.1.mpr (by decide), h.2.2.2.1.mpr (by decide), fun hmem => ?_⟩
  exact absurd (h.2.2.1.mp hmem) (by simp)

/-! ## Claim C8 -/

/-- C8: when the resolved target of `write_file` is an existing directory
inside the sandbox, the standalone writer returns the explicit error
`Error: "<relativePath>" is a directory, not a file` with the filesystem
unchanged; the duplicate writer in `functions/get_files_info.py` (whose parent
directory exists, as it always does on a real filesystem when the target
exists) also returns an error string and leaves the filesystem unchanged,
via the `IsADirectoryError` raised by `open`. -/
theorem c8_write_to_directory_fails (fs : FS) (wd fp content : String)
    (hcont : startsWithPy (abspathJoin wd fp) (abspath wd) = true)
    (hdir : FS.lookup fs (abspathJoin wd fp) = some Entry.dir) :
    write_file fs wd fp content
      = ("Error: \"" ++ (fp ++ "\" is a directory, not a file"), fs)
    ∧ (pathExists fs (dirname (abspathJoin wd fp)) = true →
        (Gfi.write_file fs wd fp content).2 = fs
        ∧ startsWithPy (Gfi.write_file fs wd fp content).1 "Error" = true) := by
  have hpe : pathExists fs (abspathJoin wd fp) = true := by
    simp [pathExists, hdir]
  have hid : isdir fs (abspathJoin wd fp) = true := by
    simp [isdir, hdir]
  constructor
  · simp only [write_file, hcont, Bool.not_true, Bool.false_eq_true, if_false, hpe,
      Bool.not_true, hid, Bool.and_self, if_true]
  · intro hparent
    have hgfi : Gfi.write_file fs wd fp content
        = ("Error: " ++ ("[Errno 21] Is a directory: " ++ abspathJoin wd fp), fs) := by
      simp only [Gfi.write_file, hcont, Bool.not_true, Bool.false_eq_true, if_false,
        hparent, Bool.not_true, openWrite, hid, if_true]
    rw [hgfi]
    exact ⟨rfl, startsWithPy_append_left "Error: " _ "Error" (by decide)⟩

/-- Witness for C8 at a concrete directory target. -/
theorem c8_write_to_directory_fails_witness :
    write_file [("/w", Entry.dir), ("/w/sub", Entry.dir)] "/w" "sub" "x"
      = ("Error: \"" ++ ("sub" ++ "\" is a directory, not a file"),
          [("/w", Entry.dir), ("/w/sub", Entry.dir)])
    ∧ (Gfi.write_file [("/w", Entry.dir), ("/w/sub", Entry.dir)] "/w" "sub" "x").2
      = [("/w", Entry.dir), ("/w/sub", Entry.dir)] := by
  have h := c8_write_to_directory_fails [("/w", Entry.dir), ("/w/sub", Entry.dir)]
    "/w" "sub" "x" (by decide) (by decide)
  exact ⟨h.1, (h.2 (by decide)).1⟩

/-! ## Claim C4 -/

theorem FS.lookup_insert_self (fs : FS) (k : String) (e : Entry) :
    FS.lookup (FS.insert fs k e) k = some e := by
  unfold FS.lookup FS.insert
  rw [List.find?_cons_of_pos]
  · rfl
  · simp

/-- Error strings beginning with the given literal never carry the success
prefix of the writer. -/
theorem not_success_of_error_lit (lit x : String)
    (h₁ : ("Successfully wrote to " : String).data.isPrefixOf lit.data = false)
    (h₂ : lit.data.isPrefixOf ("Successfully wrote to " : String).data = false) :
    startsWithPy (lit ++ x) "Successfully wrote to " = false :=
  startsWithPy_append_false lit x "Successfully wrote to " h₁ h₂

/-- C4 counterexample: the claim allows `maxChars` as small as the character
length of the written content.  Writing the one-character, two-byte string and
reading it back with `maxChars = 1` (at least the length of the content, as the
claim demands) does not return the content: the byte-measured size check
appends the truncation marker. -/
theorem c4_roundtrip_char_budget_fails :
    (write_file [("/work", Entry.dir)] "/work" "a.txt" "é").1
      = "Successfully wrote to \"" ++ ("a.txt" ++ ("\" (" ++ (Nat.repr 1 ++ " characters written)")))
    ∧ ("é" : String).data.length ≤ 1
    ∧ get_file_content (write_file [("/work", Entry.dir)] "/work" "a.txt" "é").2
        none "/work" "a.txt" 1 ≠ "é" := by
  decide

/-- C4 (amended): for every successful `write_file`, the file at the resolved
path contains exactly the written content (full overwrite, no append), and a
subsequent `get_file_content` with `maxChars` at least the byte size of the
content (rather than its character length) returns exactly that content. -/
theorem c4_write_read_roundtrip (fs : FS) (wd fp c : String) (mc : Nat)
    (hsucc : startsWithPy (write_file fs wd fp c).1 "Successfully wrote to " = true)
    (hmc : fileSize c ≤ mc) :
    FS.lookup (write_file fs wd fp c).2 (abspathJoin wd fp) = some (Entry.file c)
    ∧ get_file_content (write_file fs wd fp c).2 none wd fp mc = c := by
  cases hcont : startsWithPy (abspathJoin wd fp) (abspath wd) with
  | false =>
    exfalso
    simp only [write_file, hcont, Bool.not_false, if_true] at hsucc
    exact Bool.noConfusion
      ((not_success_of_error_lit "Error: Cannot write to \"" _ (by decide) (by decide)).symm.trans hsucc)
  | true =>
    rcases hmk : (if !pathExists fs (abspathJoin wd fp)
        then makedirs fs (dirname (abspathJoin wd fp)) true
        else (none, fs)) with ⟨mkErr, fs1⟩
    have hw : write_file fs wd fp c =
        (match (mkErr, fs1) with
          | (some e, fs1) => ("Error: creating directory: " ++ e, fs1)
          | (none, fs1) =>
            if pathExists fs1 (abspathJoin wd fp) && isdir fs1 (abspathJoin wd fp) then
              ("Error: \"" ++ (fp ++ "\" is a directory, not a file"), fs1)
            else
              match openWrite fs1 (abspathJoin wd fp) c with
              | (some e, fs2) => ("Error: writing to file: " ++ e, fs2)
              | (none, fs2) =>
                ("Successfully wrote to \""
                    ++ (fp ++ ("\" (" ++ (Nat.repr c.length ++ " characters written)"))), fs2)) := by
      simp only [write_file, hcont, Bool.not_true, Bool.false_eq_true, if_false, hmk]
    cases mkErr with
    | some e =>
      exfalso
      rw [hw] at hsucc
      exact Bool.noConfusion
        ((not_success_of_error_lit "Error: creating directory: " _ (by decide) (by decide)).symm.trans hsucc)
    | none =>
      cases hdir : pathExists fs1 (abspathJoin wd fp) && isdir fs1 (abspathJoin wd fp) with
      | true =>
        exfalso
        rw [hw] at hsucc
        simp only [hdir, if_true] at hsucc
        exact Bool.noConfusion
          ((not_success_of_error_lit "Error: \"" _ (by decide) (by decide)).symm.trans hsucc)
      | false =>
        rcases how : openWrite fs1 (abspathJoin wd fp) c with ⟨owErr, fs2⟩
        cases owErr with
        | some e =>
          exfalso
          rw [hw] at hsucc
          simp only [hdir, Bool.false_eq_true, if_false, how] at hsucc
          exact Bool.noConfusion
            ((not_success_of_error_lit "Error: writing to file: " _ (by decide) (by decide)).symm.trans hsucc)
        | none =>
          have hfs2 : fs2 = FS.insert fs1 (abspathJoin wd fp) (Entry.file c) := by
            cases h1 : isdir fs1 (abspathJoin wd fp) with
            | true => simp [openWrite, h1] at how
            | false =>
              cases h2 : isdir fs1 (dirname (abspathJoin wd fp)) with
              | false => simp [openWrite, h1, h2] at how
              | true =>
                simp only [openWrite, h1, h2, Bool.false_eq_true, if_false,
                  Bool.not_true, Prod.mk.injEq] at how
                exact how.2.symm
          have hres : write_file fs wd fp c =
              ("Successfully wrote to \""
                  ++ (fp ++ ("\" (" ++ (Nat.repr c.length ++ " characters written)"))), fs2) := by
            rw [hw]
            simp only [hdir, Bool.false_eq_true, if_false, how]
          have hlook : FS.lookup fs2 (abspathJoin wd fp) = some (Entry.file c) := by
            rw [hfs2]
            exact FS.lookup_insert_self fs1 (abspathJoin wd fp) (Entry.file c)
          refine ⟨by rw [hres]; exact hlook, ?_⟩
          rw [hres]
          simp only [get_file_content, hcont, Bool.not_true, Bool.false_eq_true, if_false,
            isfile, hlook, readFileContent]
          rw [if_neg (by omega),
            takeChars_of_length_le c mc (le_trans (length_le_fileSize c) hmc)]

/-- Witness for C4 (amended): write then read back a two-byte ASCII content. -/
theorem c4_write_read_roundtrip_witness :
    FS.lookup (write_file [("/work", Entry.dir)] "/work" "b.txt" "hi").2
        (abspathJoin "/work" "b.txt") = some (Entry.file "hi")
    ∧ get_file_content (write_file [("/work", Entry.dir)] "/work" "b.txt" "hi").2
        none "/work" "b.txt" 100 = "hi" :=
  c4_write_read_roundtrip [("/work", Entry.dir)] "/work" "b.txt" "hi" 100
    (by decide) (by decide)

/-! ## Claim C5 -/

theorem find?_filter_ne (as : List (String × ToolArg)) (bad k : String) (h : k ≠ bad) :
    List.find? (fun q => q.1 == k) (as.filter (fun q => q.1 != bad))
      = List.find? (fun q => q.1 == k) as := by
  induction as with
  | nil => rfl
  | cons a as ih =>
    by_cases hb : a.1 = bad
    · have hk : (a.1 == k) = false := by
        rw [hb]
        exact beq_eq_false_iff_ne.mpr (fun hh => h hh.symm)
      rw [List.filter_cons, if_neg (by simp [hb])]
      simp only [List.find?, hk]
      exact ih
    · rw [List.filter_cons, if_pos (by simp [hb])]
      by_cases hak : (a.1 == k) = true
      · simp only [List.find?, hak]
      · rw [Bool.not_eq_true] at hak
        simp only [List.find?, hak]
        exact ih

theorem lookupArg_filter_ne (args : ToolArgs) (bad k : String) (h : k ≠ bad) :
    lookupArg (args.filter (fun q => q.1 != bad)) k = lookupArg args k := by
  unfold lookupArg
  rw [find?_filter_ne args bad k h]

/-- C5: the dispatcher injects the fixed sandbox root as the
working-directory argument of every operation and never reads a model-supplied
`working_directory` binding from the tool-call argument mapping: deleting every
such binding leaves the result (text and filesystem effect) of every tool call
unchanged. -/
theorem c5_dispatcher_ignores_model_working_directory (fs : FS) (root : String)
    (ioErr : Option String) (oc : ExecOutcome) (toolName : String) (args : ToolArgs) :
    call_function fs root ioErr oc toolName
        (args.filter (fun q => q.1 != "working_directory"))
      = call_function fs root ioErr oc toolName args := by
  have hs : ∀ k, k ≠ "working_directory" →
      argStr (args.filter (fun q => q.1 != "working_directory")) k = argStr args k := by
    intro k hk
    unfold argStr
    rw [lookupArg_filter_ne args "working_directory" k hk]
  have hl : ∀ k, k ≠ "working_directory" →
      argList (args.filter (fun q => q.1 != "working_directory")) k = argList args k := by
    intro k hk
    unfold argList
    rw [lookupArg_filter_ne args "working_directory" k hk]
  unfold call_function
  rw [hs "directory" (by decide), hs "file_path" (by decide), hs "content" (by decide),
    hl "args" (by decide)]

/-! ## Claim C7 -/

/-- Every error returned by a failing `run_python_file` precheck begins with
`Error`. -/
theorem run_python_precheck_error (fs : FS) (wd fp : String) :
    ∀ e, run_python_precheck fs wd fp = some e → startsWithPy e "Error" = true := by
  intro e he
  cases hc : startsWithPy (abspathJoin wd fp) (abspath wd)
  <;> cases hx : pathExists fs (abspathJoin wd fp)
  <;> cases hp : endsWithPy fp ".py"
  <;> simp only [run_python_precheck, hc, hx, hp, Bool.not_true, Bool.not_false,
    Bool.false_eq_true, if_false, if_true, Option.some.injEq, reduceCtorEq] at he
  <;> first
    | exact absurd he (by simp)
    | (rw [← he]
       exact startsWithPy_append_left _ _ _ (by decide))

/-- C7: each of the four operations is total in the embedding, and every
failure of any kind (containment violation, not-found, wrong type, I/O error,
timeout, spawn error) is returned as a string beginning with `Error`: a reader
or lister call that is not a full success returns an `Error`-prefixed string; a
writer call returns either an `Error`-prefixed string or the success
confirmation; a runner call returns either an `Error`-prefixed string or the
composed output of a completed execution. -/
theorem c7_failures_are_error_strings :
    (∀ (fs : FS) (ioErr : Option String) (wd fp : String) (mc : Nat),
      ¬(startsWithPy (abspathJoin wd fp) (abspath wd) = true
        ∧ isfile fs (abspathJoin wd fp) = true ∧ ioErr = none) →
      startsWithPy (get_file_content fs ioErr wd fp mc) "Error" = true)
    ∧ (∀ (fs : FS) (wd dir : String),
      ¬(startsWithPy (abspathJoin wd dir) (abspath wd) = true
        ∧ isdir fs (abspathJoin wd dir) = true) →
      startsWithPy (get_files_info fs wd dir) "Error" = true)
    ∧ (∀ (fs : FS) (wd fp c : String),
      startsWithPy (write_file fs wd fp c).1 "Error" = true
      ∨ startsWithPy (write_file fs wd fp c).1 "Successfully wrote to " = true)
    ∧ (∀ (fs : FS) (wd fp : String) (args : List String) (oc : ExecOutcome),
      startsWithPy (run_python_file fs wd fp args oc) "Error" = true
      ∨ (run_python_precheck fs wd fp = none
        ∧ ∃ o e rc, oc = ExecOutcome.completed o e rc
            ∧ run_python_file fs wd fp args oc = formatExec o e rc)) := by
  refine ⟨?_, ?_, ?_, ?_⟩
  · intro fs ioErr wd fp mc hfail
    cases hc : startsWithPy (abspathJoin wd fp) (abspath wd) with
    | false =>
      simp only [get_file_content, hc, Bool.not_false, if_true]
      exact startsWithPy_append_left _ _ _ (by decide)
    | true =>
      cases hf : isfile fs (abspathJoin wd fp) with
      | false =>
        simp only [get_file_content, hc, hf, Bool.not_true, Bool.not_false,
          Bool.false_eq_true, if_false, if_true]
        exact startsWithPy_append_left _ _ _ (by decide)
      | true =>
        cases ioErr with
        | none => exact absurd ⟨hc, hf, rfl⟩ hfail
        | some e =>
          simp only [get_file_content, hc, hf, Bool.not_true, Bool.false_eq_true, if_false]
          exact startsWithPy_append_left _ _ _ (by decide)
  · intro fs wd dir hfail
    cases hc : startsWithPy (abspathJoin wd dir) (abspath wd) with
    | false =>
      simp only [get_files_info, hc, Bool.not_false, if_true]
      exact startsWithPy_append_left _ _ _ (by decide)
    | true =>
      cases hd : isdir fs (abspathJoin wd dir) with
      | false =>
        simp only [get_files_info, hc, hd, Bool.not_true, Bool.not_false,
          Bool.false_eq_true, if_false, if_true]
        exact startsWithPy_append_left _ _ _ (by decide)
      | true => exact absurd ⟨hc, hd⟩ hfail
  · intro fs wd fp c
    cases hc : startsWithPy (abspathJoin wd fp) (abspath wd) with
    | false =>
      left
      simp only [write_file, hc, Bool.not_false, if_true]
      exact startsWithPy_append_left _ _ _ (by decide)
    | true =>
      rcases hmk : (if !pathExists fs (abspathJoin wd fp)
          then makedirs fs (dirname (abspathJoin wd fp)) true
          else (none, fs)) with ⟨mkErr, fs1⟩
      have hw : write_file fs wd fp c =
          (match (mkErr, fs1) with
            | (some e, fs1) => ("Error: creating directory: " ++ e, fs1)
            | (none, fs1) =>
              if pathExists fs1 (abspathJoin wd fp) && isdir fs1 (abspathJoin wd fp) then
                ("Error: \"" ++ (fp ++ "\" is a directory, not a file"), fs1)
              else
                match openWrite fs1 (abspathJoin wd fp) c with
                | (some e, fs2) => ("Error: writing to file: " ++ e, fs2)
                | (none, fs2) =>
                  ("Successfully wrote to \""
                      ++ (fp ++ ("\" (" ++ (Nat.repr c.length ++ " characters written)"))), fs2)) := by
        simp only [write_file, hc, Bool.not_true, Bool.false_eq_true, if_false, hmk]
      cases mkErr with
      | some e =>
        left
        rw [hw]
        exact startsWithPy_append_left _ _ _ (by decide)
      | none =>
        cases hdir : pathExists fs1 (abspathJoin wd fp) && isdir fs1 (abspathJoin wd fp) with
        | true =>
          left
          rw [hw]
          simp only [hdir, if_true]
          exact startsWithPy_append_left _ _ _ (by decide)
        | false =>
          rcases how : openWrite fs1 (abspathJoin wd fp) c with ⟨owErr, fs2⟩
          cases owErr with
          | some e =>
            left
            rw [hw]
            simp only [hdir, Bool.false_eq_true, if_false, how]
            exact startsWithPy_append_left _ _ _ (by decide)
          | none =>
            right
            rw [hw]
            simp only [hdir, Bool.false_eq_true, if_false, how]
            exact startsWithPy_append_left _ _ _ (by decide)
  · intro fs wd fp args oc
    cases hpre : run_python_precheck fs wd fp with
    | some e =>
      left
      have : run_python_file fs wd fp args oc = e := by
        simp [run_python_file, hpre]
      rw [this]
      exact run_python_precheck_error fs wd fp e hpre
    | none =>
      cases oc with
      | completed o e rc =>
        exact Or.inr ⟨rfl, o, e, rc, rfl, by simp [run_python_file, hpre]⟩
      | timeout =>
        left
        have : run_python_file fs wd fp args ExecOutcome.timeout
            = "Error: executing Python file: "
                ++ timeoutExceptionStr ("python" :: abspathJoin wd fp :: args) := by
          simp [run_python_file, hpre]
        rw [this]
        exact startsWithPy_append_left _ _ _ (by decide)
      | raised msg =>
        left
        have : run_python_file fs wd fp args (ExecOutcome.raised msg)
            = "Error: executing Python file: " ++ msg := by
          simp [run_python_file, hpre]
        rw [this]
        exact startsWithPy_append_left _ _ _ (by decide)

/-- Witness for C7: concrete failures of each kind produce `Error`-prefixed
strings. -/
theorem c7_failures_are_error_strings_witness :
    startsWithPy (get_file_content [] none "/w" "../x" 5) "Error" = true
    ∧ startsWithPy (get_files_info [] "/w" "nope") "Error" = true
    ∧ (startsWithPy (write_file [] "/w" "q/r.txt" "c").1 "Error" = true
        ∨ startsWithPy (write_file [] "/w" "q/r.txt" "c").1 "Successfully wrote to " = true)
    ∧ (startsWithPy (run_python_file [] "/w" "x.py" [] ExecOutcome.timeout) "Error" = true
        ∨ (run_python_precheck [] "/w" "x.py" = none
          ∧ ∃ o e rc, ExecOutcome.timeout = ExecOutcome.completed o e rc
              ∧ run_python_file [] "/w" "x.py" [] ExecOutcome.timeout = formatExec o e rc)) := by
  have h := c7_failures_are_error_strings
  exact ⟨h.1 [] none "/w" "../x" 5 (by decide), h.2.1 [] "/w" "nope" (by decide),
    h.2.2.1 [] "/w" "q/r.txt" "c", h.2.2.2 [] "/w" "x.py" [] ExecOutcome.timeout⟩

/-! ## Claim C9 -/

/-- C9 counterexample: the claim states that every file-reader call failing the
regular-file check reports the caller-supplied relative path.  The duplicate
reader in `functions/get_files_info.py` (one of the claim's cited sources)
interpolates the resolved absolute `full_path` instead. -/
theorem c9_dup_reader_reports_absolute_path :
    Gfi.get_file_content [("/work", Entry.dir)] "/work" "nope.txt"
      = "Error: File not found or is not a regular file: \"/work/nope.txt\""
    ∧ Gfi.get_file_content [("/work", Entry.dir)] "/work" "nope.txt"
      ≠ "Error: File not found or is not a regular file: \"nope.txt\"" := by
  decide

/-- C9 (amended): the standalone reader in `functions/get_file_content.py`
returns exactly `Error: File not found or is not a regular file:
"<relativePath>"` with the caller-supplied relative path whenever containment
passes and the resolved path is not a regular file; the duplicate reader in
`functions/get_files_info.py` uses the same template but interpolates the
resolved absolute path instead. -/
theorem c9_reader_not_found_uses_relative_path (fs : FS) (ioErr : Option String)
    (wd fp : String) (mc : Nat)
    (hcont : startsWithPy (abspathJoin wd fp) (abspath wd) = true)
    (hnot : isfile fs (abspathJoin wd fp) = false) :
    get_file_content fs ioErr wd fp mc
      = "Error: File not found or is not a regular file: \"" ++ (fp ++ "\"")
    ∧ Gfi.get_file_content fs wd fp
      = "Error: File not found or is not a regular file: \"" ++ (abspathJoin wd fp ++ "\"") := by
  constructor
  · simp only [get_file_content, hcont, Bool.not_true, Bool.false_eq_true, if_false,
      hnot, Bool.not_false, if_true]
  · simp only [Gfi.get_file_content, hcont, Bool.not_true, Bool.false_eq_true, if_false,
      hnot, Bool.not_false, if_true]

/-- Witness for C9 (amended) at a concrete missing file. -/
theorem c9_reader_not_found_uses_relative_path_witness :
    get_file_content [("/work", Entry.dir)] none "/work" "missing.txt" 10
      = "Error: File not found or is not a regular file: \"missing.txt\"" := by
  have h := c9_reader_not_found_uses_relative_path [("/work", Entry.dir)] none
    "/work" "missing.txt" 10 (by decide) (by decide)
  rw [h.1]
  decide

/-! ## Claim C10 -/

/-- C10: `run_python_file` spawns the interpreter exactly when its three
prechecks pass in order (containment on the resolved path, `os.path.exists` on
the resolved path with no regular-file restriction, `.py` suffix on the
caller-supplied relative path); a failing precheck returns the first failing
check's error, independently of the subprocess outcome; when all pass, the
subprocess outcome determines the result. -/
theorem c10_run_precheck_order (fs : FS) (wd fp : String) :
    (run_python_precheck fs wd fp = none ↔
      startsWithPy (abspathJoin wd fp) (abspath wd) = true
      ∧ pathExists fs (abspathJoin wd fp) = true
      ∧ endsWithPy fp ".py" = true)
    ∧ (startsWithPy (abspathJoin wd fp) (abspath wd) = false →
        run_python_precheck fs wd fp
          = some ("Error: Cannot execute \""
              ++ (fp ++ "\" as it is outside the permitted working directory")))
    ∧ (startsWithPy (abspathJoin wd fp) (abspath wd) = true →
        pathExists fs (abspathJoin wd fp) = false →
        run_python_precheck fs wd fp = some ("Error: File \"" ++ (fp ++ "\" not found.")))
    ∧ (startsWithPy (abspathJoin wd fp) (abspath wd) = true →
        pathExists fs (abspathJoin wd fp) = true →
        endsWithPy fp ".py" = false →
        run_python_precheck fs wd fp = some ("Error: \"" ++ (fp ++ "\" is not a Python file.")))
    ∧ (∀ e args oc1 oc2, run_python_precheck fs wd fp = some e →
        run_python_file fs wd fp args oc1 = e
        ∧ run_python_file fs wd fp args oc1 = run_python_file fs wd fp args oc2)
    ∧ (∀ args msg, run_python_precheck fs wd fp = none →
        run_python_file fs wd fp args (ExecOutcome.raised msg)
          = "Error: executing Python file: " ++ msg) := by
  cases hc : startsWithPy (abspathJoin wd fp) (abspath wd)
  <;> cases he : pathExists fs (abspathJoin wd fp)
  <;> cases hp : endsWithPy fp ".py"
  <;> simp [run_python_precheck, run_python_file, hc, he, hp]

/-- Witness for C10: all prechecks pass on an existing `.py` file, and a
missing file yields the not-found error regardless of outcome. -/
theorem c10_run_precheck_order_witness :
    run_python_precheck [("/w", Entry.dir), ("/w/a.py", Entry.file "")] "/w" "a.py" = none
    ∧ run_python_file [("/w", Entry.dir)] "/w" "b.py" [] (ExecOutcome.completed "x" "" 0)
      = "Error: File \"" ++ ("b.py" ++ "\" not found.") := by
  have h1 := c10_run_precheck_order [("/w", Entry.dir), ("/w/a.py", Entry.file "")] "/w" "a.py"
  have h2 := c10_run_precheck_order [("/w", Entry.dir)] "/w" "b.py"
  refine ⟨h1.1.mpr ⟨by decide, by decide, by decide⟩, ?_⟩
  have hsome := h2.2.2.1 (by decide) (by decide)
  exact (h2.2.2.2.2.1 _ [] (ExecOutcome.completed "x" "" 0)
    (ExecOutcome.completed "x" "" 0) hsome).1
